import Mathlib

/-!
Verification of the SSM Association resource of `terraform-provider-aws`
(file `internal/service/ssm/association.go`).

The Go code is shallowly embedded as follows.

Go pointers to scalars (`*string`, `*bool`) become `Option String` /
`Option Bool`, with `none` for the nil pointer.  `aws.String s` is `some s`
and `aws.StringValue p` is `p.getD ""` (the SDK helper returns the zero
value for a nil pointer).

A `map[string]interface{}` read from a Terraform list block is embedded as
a structure whose fields are `Option`-valued: `some v` means the key is
present and bound to the string `v`, `none` means the key is absent.  A Go
nil slice is distinguished from a non-nil empty slice by embedding
`[]interface{}` as `Option (List _)`: `none` is the nil slice, `some []`
the non-nil empty one.

Terraform's `ResourceData.GetOk` returns `ok = false` exactly when the
stored value equals the type's zero value (empty string, `false`, `0`,
empty list or map); the `getOk*` helpers below encode that documented SDK
behaviour.  When a nested block is read back from `ResourceData`, the
element map carries every schema key, with the zero value standing for an
unset field.

Run-time panics that Go code can take (index out of range, failed type
assertion on a nil interface) are made explicit with `Except GoPanic`.

The remote API is an oracle: each lifecycle function takes the result of
its network call as an argument and returns the observable outcome (error
diagnostics, the identifier written with `SetId`, the attributes written
with `Set`, and whether the success poller was invoked).
-/

/-- Run-time panics a Go expression in this file can raise. -/
inductive GoPanic where
  | indexOutOfRange
  | nilTypeAssertion
  deriving DecidableEq, Repr

/-- Embedding of `aws.StringValue`: dereference a `*string`, nil giving the
empty string. -/
def stringValue (p : Option String) : String :=
  p.getD ""

/-- Embedding of `d.GetOk` on a `TypeString` field: `ok` is false exactly on
the zero value `""`. -/
def getOkString (s : String) : Option String :=
  if s = "" then none else some s

/-- Embedding of `d.GetOk` on a `TypeBool` field: `ok` is false exactly on the
zero value `false`. -/
def getOkBool (b : Bool) : Option Bool :=
  if b then some true else none

/-- Embedding of `d.GetOk` on a `TypeInt` field: `ok` is false exactly on the
zero value `0`. -/
def getOkInt (n : Int) : Option Int :=
  if n = 0 then none else some n

/-- Embedding of `d.GetOk` on a `TypeList` or `TypeMap` field: `ok` is false
exactly on an empty collection. -/
def getOkList {α : Type} (l : List α) : Option (List α) :=
  if l.isEmpty then none else some l

/-- One element of the `output_location` configuration list: a
`map[string]interface{}` over the keys `s3_bucket_name`, `s3_key_prefix`,
`s3_region`; an `Option` field is `none` when the key is absent from the
map. -/
structure OutputLocationItem where
  s3BucketName : Option String
  s3KeyPrefix : Option String
  s3Region : Option String
  deriving DecidableEq, Repr

/-- SDK struct `ssm.S3OutputLocation` (`*string` fields). -/
structure S3OutputLocation where
  OutputS3BucketName : Option String
  OutputS3KeyPrefix : Option String
  OutputS3Region : Option String
  deriving DecidableEq, Repr

/-- SDK struct `ssm.InstanceAssociationOutputLocation` (a `*S3OutputLocation`
field). -/
structure InstanceAssociationOutputLocation where
  S3Location : Option S3OutputLocation
  deriving DecidableEq, Repr

/-- Embedding of `expandAssociationOutputLocation`.  A nil `config` slice
returns nil; otherwise `config[0]` is read unconditionally (index panic on a
non-nil empty slice), its `s3_bucket_name` entry is type-asserted without a
comma-ok form (panic when the key is absent), `s3_key_prefix` is copied
whenever its key is present, and `s3_region` is copied only when its key is
present with a non-empty string. -/
def expandAssociationOutputLocation (config : Option (List OutputLocationItem)) :
    Except GoPanic (Option InstanceAssociationOutputLocation) :=
  match config with
  | none => .ok none
  | some cfg =>
    match cfg with
    | [] => .error .indexOutOfRange
    | locationConfig :: _ =>
      match locationConfig.s3BucketName with
      | none => .error .nilTypeAssertion
      | some bucket =>
        .ok (some
          { S3Location := some
              { OutputS3BucketName := some bucket,
                OutputS3KeyPrefix := locationConfig.s3KeyPrefix,
                OutputS3Region :=
                  match locationConfig.s3Region with
                  | some v => if v = "" then none else some v
                  | none => none } })

/-- Embedding of `flattenAssociationOutputLocation`: nil when the container or
its nested S3 location is nil, otherwise a one-element list whose map always
carries `s3_bucket_name` (via `aws.StringValue`) and carries `s3_key_prefix`
and `s3_region` exactly when the corresponding pointer is non-nil. -/
def flattenAssociationOutputLocation (location : Option InstanceAssociationOutputLocation) :
    Option (List OutputLocationItem) :=
  match location with
  | none => none
  | some loc =>
    match loc.S3Location with
    | none => none
    | some s3 =>
      some
        [{ s3BucketName := some (stringValue s3.OutputS3BucketName)
           s3KeyPrefix := s3.OutputS3KeyPrefix
           s3Region := s3.OutputS3Region }]

/-- Embedding of the Go map assignment `docParams[k] = values`: overwrite the
binding when the key is already present, otherwise append a new one. -/
def mapAssign (m : List (String × List String)) (k : String) (v : List String) :
    List (String × List String) :=
  if m.any (fun p => p.1 = k) then
    m.map (fun p => if p.1 = k then (p.1, v) else p)
  else
    m ++ [(k, v)]

/-- Embedding of `expandDocumentParameters`: iterate the parameter map and bind
each key to the one-element list holding its value.  The input list stands for
one iteration order of the Go map, so its keys are pairwise distinct in every
call the program makes. -/
def expandDocumentParameters (params : List (String × String)) :
    List (String × List String) :=
  params.foldl (fun docParams kv => mapAssign docParams kv.1 [kv.2]) []

/-- One element of the `targets` configuration list. -/
structure TargetItem where
  key : String
  values : List String
  deriving DecidableEq, Repr

/-- SDK struct `ssm.Target`. -/
structure Target where
  Key : Option String
  Values : List String
  deriving DecidableEq, Repr

/-- Modelled from the spec: `expandTargets` is defined outside the provided
sources (only its callers are present).  The spec describes a target as a
(key, list-of-values) selector copied into the request, so expansion maps
each configured item to the SDK pair. -/
def expandTargets (ts : List TargetItem) : List Target :=
  ts.map (fun t => { Key := some t.key, Values := t.values })

/-- Modelled from the spec: `flattenTargets` is defined outside the provided
sources.  The spec says targets flatten to an ordered list of maps preserving
the remote-returned order. -/
def flattenTargets (ts : Option (List Target)) : List TargetItem :=
  (ts.getD []).map (fun t => { key := stringValue t.Key, values := t.Values })

/-- Modelled from the spec: `flattenParameters` is defined outside the provided
sources.  The spec says map-valued fields use a single-value-per-key-list
convention, so flattening takes each key's single value back. -/
def flattenParameters (ps : Option (List (String × List String))) :
    List (String × String) :=
  (ps.getD []).map (fun kv => (kv.1, kv.2.headD ""))

/-- Embedding of `schema.ResourceData` for this resource: the stored value of
every configuration field, plus the identifier and the new-resource flag.
Terraform stores a value for every field, with the type's zero value standing
for "unset". -/
structure ResourceData where
  name : String
  apply_only_at_cron_interval : Bool
  association_name : String
  instance_id : String
  document_version : String
  schedule_expression : String
  parameters : List (String × String)
  targets : List TargetItem
  output_location : List OutputLocationItem
  compliance_severity : String
  max_concurrency : String
  max_errors : String
  automation_target_parameter_name : String
  wait_for_success_timeout_seconds : Int
  id : String
  isNewResource : Bool
  deriving DecidableEq, Repr

/-- SDK struct `ssm.CreateAssociationInput` (all fields pointers or nil-able
collections). -/
structure CreateAssociationInput where
  Name : Option String
  ApplyOnlyAtCronInterval : Option Bool
  AssociationName : Option String
  InstanceId : Option String
  DocumentVersion : Option String
  ScheduleExpression : Option String
  Parameters : Option (List (String × List String))
  Targets : Option (List Target)
  OutputLocation : Option InstanceAssociationOutputLocation
  ComplianceSeverity : Option String
  MaxConcurrency : Option String
  MaxErrors : Option String
  AutomationTargetParameterName : Option String
  deriving DecidableEq, Repr

/-- Embedding of the request-building half of `resourceAssociationCreate`
(lines 169-219): start from a request holding only the required `Name`, then
copy each optional field into the request exactly when `GetOk` reports it
set. -/
def buildCreateAssociationInput (d : ResourceData) :
    Except GoPanic CreateAssociationInput :=
  match (match getOkList d.output_location with
         | some v => expandAssociationOutputLocation (some v)
         | none => .ok none) with
  | .error p => .error p
  | .ok outputLocation => .ok
    { Name := some d.name
      ApplyOnlyAtCronInterval := getOkBool d.apply_only_at_cron_interval
      AssociationName := getOkString d.association_name
      InstanceId := getOkString d.instance_id
      DocumentVersion := getOkString d.document_version
      ScheduleExpression := getOkString d.schedule_expression
      Parameters := (getOkList d.parameters).map expandDocumentParameters
      Targets := (getOkList d.targets).map expandTargets
      OutputLocation := outputLocation
      ComplianceSeverity := getOkString d.compliance_severity
      MaxConcurrency := getOkString d.max_concurrency
      MaxErrors := getOkString d.max_errors
      AutomationTargetParameterName := getOkString d.automation_target_parameter_name }

/-- SDK struct `ssm.AssociationDescription` (the fields this resource reads). -/
structure AssociationDescription where
  AssociationId : Option String
  ApplyOnlyAtCronInterval : Option Bool
  AssociationName : Option String
  InstanceId : Option String
  Name : Option String
  ScheduleExpression : Option String
  DocumentVersion : Option String
  ComplianceSeverity : Option String
  MaxConcurrency : Option String
  MaxErrors : Option String
  AutomationTargetParameterName : Option String
  Parameters : Option (List (String × List String))
  Targets : Option (List Target)
  OutputLocation : Option InstanceAssociationOutputLocation
  deriving DecidableEq, Repr

/-- SDK struct `ssm.CreateAssociationOutput`. -/
structure CreateAssociationOutput where
  AssociationDescription : Option AssociationDescription
  deriving DecidableEq, Repr

/-- Oracle for the `CreateAssociationWithContext` network call. -/
inductive CreateApiResult where
  | err (e : String)
  | ok (resp : CreateAssociationOutput)
  deriving DecidableEq, Repr

/-- Oracle for one run of `waitAssociationSuccess` (the poller itself lives
outside the provided sources): either the association reached Success, or the
wait failed with an error. -/
inductive WaitResult where
  | ok
  | err (e : String)
  deriving DecidableEq, Repr

/-- Observable outcome of `resourceAssociationCreate`: the error diagnostic
appended (if any), the identifier passed to `SetId` (`none` when `SetId` was
never called), whether `waitAssociationSuccess` was invoked, and whether the
trailing `resourceAssociationRead` was reached. -/
structure CreateOutcome where
  error : Option String
  idSet : Option String
  waitInvoked : Bool
  readInvoked : Bool
  deriving DecidableEq, Repr

/-- Embedding of the part of `resourceAssociationCreate` after the request is
built (lines 221-240): fail on a transport error or on a nil
`AssociationDescription` without setting the identifier, otherwise set the
identifier from the description and poll for Success only when `GetOk`
reports a non-zero `wait_for_success_timeout_seconds`. -/
def createAssociationOutcome (d : ResourceData) (wait : WaitResult) :
    CreateApiResult → CreateOutcome
  | .err e =>
    { error := some ("creating SSM association: " ++ e),
      idSet := none, waitInvoked := false, readInvoked := false }
  | .ok resp =>
    match resp.AssociationDescription with
    | none =>
      { error := some ("AssociationDescription was nil"),
        idSet := none, waitInvoked := false, readInvoked := false }
    | some description =>
      let newId := stringValue description.AssociationId
      match getOkInt d.wait_for_success_timeout_seconds with
      | some _ =>
        match wait with
        | .err e =>
          { error := some ("waiting for SSM Association (" ++ newId ++
              ") to be Success: " ++ e),
            idSet := some newId, waitInvoked := true, readInvoked := false }
        | .ok =>
          { error := none, idSet := some newId,
            waitInvoked := true, readInvoked := true }
      | none =>
        { error := none, idSet := some newId,
          waitInvoked := false, readInvoked := true }

/-- Embedding of `resourceAssociationCreate` (lines 163-241): build the
request (possibly panicking while expanding the output location), then follow
`createAssociationOutcome` on the result of the create call. -/
def resourceAssociationCreate (d : ResourceData) (api : CreateApiResult)
    (wait : WaitResult) : Except GoPanic CreateOutcome :=
  match buildCreateAssociationInput d with
  | .error p => .error p
  | .ok _associationInput => .ok (createAssociationOutcome d wait api)

/-- Embedding of the fields of `conns.AWSClient` that this resource reads. -/
structure AWSClient where
  Partition : String
  Region : String
  AccountID : String
  deriving DecidableEq, Repr

/-- Embedding of `arn.ARN` from the AWS SDK. -/
structure ARN where
  Partition : String
  Service : String
  Region : String
  AccountID : String
  Resource : String
  deriving DecidableEq, Repr

/-- Embedding of `arn.ARN.String()`: the colon-separated rendering
`arn:partition:service:region:account-id:resource`. -/
def ARN.render (a : ARN) : String :=
  "arn:" ++ a.Partition ++ ":" ++ a.Service ++ ":" ++ a.Region ++ ":" ++
    a.AccountID ++ ":" ++ a.Resource

/-- Oracle for `FindAssociationById`: the association, a not-found error
(`tfresource.NotFound` holds), or any other error. -/
inductive FindResult where
  | found (a : AssociationDescription)
  | notFound
  | otherError (e : String)
  deriving DecidableEq, Repr

/-- Observable outcome of `resourceAssociationRead`: the error diagnostic
appended (if any), the identifier after the call, and each attribute written
with `Set` (`none` when the attribute was not written). -/
structure ReadOutcome where
  error : Option String
  id : String
  arn : Option String
  apply_only_at_cron_interval : Option (Option Bool)
  association_name : Option (Option String)
  instance_id : Option (Option String)
  name : Option (Option String)
  association_id : Option (Option String)
  schedule_expression : Option (Option String)
  document_version : Option (Option String)
  compliance_severity : Option (Option String)
  max_concurrency : Option (Option String)
  max_errors : Option (Option String)
  automation_target_parameter_name : Option (Option String)
  parameters : Option (List (String × String))
  targets : Option (List TargetItem)
  output_location : Option (Option (List OutputLocationItem))
  deriving DecidableEq, Repr

/-- Read outcome in which nothing was written and the identifier is
unchanged. -/
def ReadOutcome.unchanged (d : ResourceData) : ReadOutcome :=
  { error := none, id := d.id, arn := none,
    apply_only_at_cron_interval := none, association_name := none,
    instance_id := none, name := none, association_id := none,
    schedule_expression := none, document_version := none,
    compliance_severity := none, max_concurrency := none, max_errors := none,
    automation_target_parameter_name := none, parameters := none,
    targets := none, output_location := none }

/-- Embedding of `resourceAssociationRead` (lines 243-292): look the
association up by the stored identifier; on a not-found error outside initial
creation clear the identifier and return no error, on any other error (or
not-found during creation) return the error; otherwise write the computed
`arn` and every mirrored attribute. -/
def resourceAssociationRead (d : ResourceData) (meta : AWSClient)
    (find : FindResult) : ReadOutcome :=
  match find with
  | .notFound =>
    if !d.isNewResource then
      { ReadOutcome.unchanged d with id := "" }
    else
      { ReadOutcome.unchanged d with
          error := some ("reading SSM Association (" ++ d.id ++
            "): couldn't find resource") }
  | .otherError e =>
    { ReadOutcome.unchanged d with
        error := some ("reading SSM Association (" ++ d.id ++ "): " ++ e) }
  | .found association =>
    let arn : String := ARN.render
      { Partition := meta.Partition, Service := "ssm", Region := meta.Region,
        AccountID := meta.AccountID,
        Resource := "association/" ++ stringValue association.AssociationId }
    { error := none, id := d.id, arn := some arn,
      apply_only_at_cron_interval := some association.ApplyOnlyAtCronInterval,
      association_name := some association.AssociationName,
      instance_id := some association.InstanceId,
      name := some association.Name,
      association_id := some association.AssociationId,
      schedule_expression := some association.ScheduleExpression,
      document_version := some association.DocumentVersion,
      compliance_severity := some association.ComplianceSeverity,
      max_concurrency := some association.MaxConcurrency,
      max_errors := some association.MaxErrors,
      automation_target_parameter_name := some association.AutomationTargetParameterName,
      parameters := some (flattenParameters association.Parameters),
      targets := some (flattenTargets association.Targets),
      output_location := some (flattenAssociationOutputLocation association.OutputLocation) }

/-- Error code `ssm.ErrCodeAssociationDoesNotExist`. -/
def errCodeAssociationDoesNotExist : String :=
  "AssociationDoesNotExist"

/-- Check whether the character list `sub` occurs contiguously inside `s`. -/
def charsContain (s sub : List Char) : Bool :=
  match s with
  | [] => sub.isEmpty
  | _ :: rest => sub.isPrefixOf s || charsContain rest sub

/-- Embedding of `tfawserr.ErrCodeContains`: the error's code contains the
given string as a substring. -/
def errCodeContains (code sub : String) : Bool :=
  charsContain code.toList sub.toList

/-- Oracle for the `DeleteAssociationWithContext` network call; an error
carries the AWS error code and message. -/
inductive DeleteApiResult where
  | ok
  | err (code : String) (msg : String)
  deriving DecidableEq, Repr

/-- Embedding of `resourceAssociationDelete` (lines 357-377): issue the delete
call; swallow an error whose code contains `AssociationDoesNotExist`,
propagate any other error, and return the (possibly empty) diagnostic. -/
def resourceAssociationDelete (_d : ResourceData) (api : DeleteApiResult) :
    Option String :=
  match api with
  | .ok => none
  | .err code msg =>
    if errCodeContains code errCodeAssociationDoesNotExist then
      none
    else
      some ("deleting SSM association: " ++ code ++ ": " ++ msg)

/-- Sample AWS client used to instantiate universally quantified theorems. -/
def clientExample : AWSClient :=
  { Partition := "aws", Region := "us-east-1", AccountID := "123456789012" }

/-- Sample resource data in the steady state: only the required `name` is set,
every optional field holds its type's zero value, and the resource is not
newly created. -/
def dExample : ResourceData :=
  { name := "AWS-RunShellScript",
    apply_only_at_cron_interval := false,
    association_name := "",
    instance_id := "",
    document_version := "",
    schedule_expression := "",
    parameters := [],
    targets := [],
    output_location := [],
    compliance_severity := "",
    max_concurrency := "",
    max_errors := "",
    automation_target_parameter_name := "",
    wait_for_success_timeout_seconds := 0,
    id := "b1c2d3e4-aaaa-bbbb-cccc-d4e5f6a7b8c9",
    isNewResource := false }

/-- Sample resource data whose `output_location` block is configured with only
the required bucket name: in the flat representation read back from
`ResourceData` every schema key of the nested map is present, and the unset
`s3_key_prefix` and `s3_region` fields are stored as the zero value `""`. -/
def dKeyPrefixUnsetExample : ResourceData :=
  { dExample with output_location :=
      [{ s3BucketName := some ("tf-acc-output"),
         s3KeyPrefix := some (""),
         s3Region := some ("") }] }

/-- Sample association description as returned by a successful create call. -/
def descriptionExample : AssociationDescription :=
  { AssociationId := some ("b1c2d3e4-aaaa-bbbb-cccc-d4e5f6a7b8c9"),
    ApplyOnlyAtCronInterval := none,
    AssociationName := none,
    InstanceId := none,
    Name := some ("AWS-RunShellScript"),
    ScheduleExpression := none,
    DocumentVersion := none,
    ComplianceSeverity := none,
    MaxConcurrency := none,
    MaxErrors := none,
    AutomationTargetParameterName := none,
    Parameters := none,
    Targets := none,
    OutputLocation := none }

/-- Create request built from `dExample`: only the required `Name` is
populated. -/
def inputExampleBuilt : CreateAssociationInput :=
  { Name := some ("AWS-RunShellScript"), ApplyOnlyAtCronInterval := none,
    AssociationName := none, InstanceId := none, DocumentVersion := none,
    ScheduleExpression := none, Parameters := none, Targets := none,
    OutputLocation := none, ComplianceSeverity := none,
    MaxConcurrency := none, MaxErrors := none,
    AutomationTargetParameterName := none }

/-- Sample S3 output location whose fields are all present and non-empty. -/
def s3Example : S3OutputLocation :=
  { OutputS3BucketName := some ("tf-acc-output"),
    OutputS3KeyPrefix := some ("ssm"),
    OutputS3Region := some ("us-east-1") }

/-- C7: `flattenAssociationOutputLocation` returns nil when the container or
its nested S3 location is absent, and otherwise a one-element list whose map
always carries the bucket name and carries the key prefix and the region
exactly when they are present in the response. -/
theorem C7_flatten_output_location :
    flattenAssociationOutputLocation none = none ∧
    flattenAssociationOutputLocation (some { S3Location := none }) = none ∧
    ∀ s3 : S3OutputLocation,
      flattenAssociationOutputLocation (some { S3Location := some s3 }) =
        some [{ s3BucketName := some (stringValue s3.OutputS3BucketName),
                s3KeyPrefix := s3.OutputS3KeyPrefix,
                s3Region := s3.OutputS3Region }] :=
  ⟨rfl, rfl, fun _ => rfl⟩

/-- C5: for an output location all of whose present fields are non-empty
strings, expanding the flattened form reconstructs the record exactly. -/
theorem C5_expand_flatten_roundtrip (x : InstanceAssociationOutputLocation)
    (s3 : S3OutputLocation) (b : String)
    (hS3 : x.S3Location = some s3)
    (hb : s3.OutputS3BucketName = some b) (_hbne : b ≠ "")
    (hp : ∀ p, s3.OutputS3KeyPrefix = some p → p ≠ "")
    (hr : ∀ r, s3.OutputS3Region = some r → r ≠ "") :
    expandAssociationOutputLocation (flattenAssociationOutputLocation (some x)) =
      .ok (some x) := by
  obtain ⟨loc⟩ := x
  cases hS3
  obtain ⟨bn, kp, rg⟩ := s3
  cases hb
  simp only [flattenAssociationOutputLocation, expandAssociationOutputLocation,
    stringValue, Option.getD_some]
  cases rg with
  | none => rfl
  | some r =>
    have hrne : r ≠ "" := hr r rfl
    simp [hrne]

/-- C9: expansion of the output location returns nil on a nil configuration
slice, panics with an index-out-of-range on a non-nil empty slice, cannot take
that panic on any non-empty slice, and the create-request builder (which only
expands the field when `GetOk` reports a non-empty list) can never take it. -/
theorem C9_expand_first_element :
    expandAssociationOutputLocation none = Except.ok none ∧
    expandAssociationOutputLocation (some []) = Except.error GoPanic.indexOutOfRange ∧
    (∀ cfg : List OutputLocationItem, cfg ≠ [] →
      expandAssociationOutputLocation (some cfg) ≠ Except.error GoPanic.indexOutOfRange) ∧
    (∀ d : ResourceData,
      buildCreateAssociationInput d ≠ Except.error GoPanic.indexOutOfRange) := by
  refine ⟨rfl, rfl, ?_, ?_⟩
  · intro cfg hne
    cases cfg with
    | nil => exact absurd rfl hne
    | cons locationConfig rest =>
      cases hb : locationConfig.s3BucketName <;>
        simp [expandAssociationOutputLocation, hb]
  · intro d
    unfold buildCreateAssociationInput getOkList
    cases hl : d.output_location with
    | nil => simp
    | cons locationConfig rest =>
      cases hb : locationConfig.s3BucketName <;>
        simp [expandAssociationOutputLocation, hb]

/-- C9 witness: a one-element configuration list is expanded without the
index-out-of-range panic. -/
theorem C9_witness :
    expandAssociationOutputLocation
        (some [{ s3BucketName := some ("tf-acc-output"),
                 s3KeyPrefix := none, s3Region := none }]) ≠
      Except.error GoPanic.indexOutOfRange :=
  C9_expand_first_element.2.2.1
    [{ s3BucketName := some ("tf-acc-output"), s3KeyPrefix := none, s3Region := none }]
    (by simp)

/-- C5 witness: the round trip at a concrete record whose three fields are the
non-empty strings shown. -/
theorem C5_witness :
    expandAssociationOutputLocation (flattenAssociationOutputLocation
        (some { S3Location := some s3Example })) =
      Except.ok (some { S3Location := some s3Example }) :=
  C5_expand_flatten_roundtrip _ _ "tf-acc-output" rfl rfl (by decide)
    (fun p hp => by cases hp; decide) (fun r hr => by cases hr; decide)

/-- C1: when the remote lookup reports not-found, a read outside initial
creation clears the identifier and returns no error, while a read during
initial creation returns a hard error. -/
theorem C1_read_not_found (d : ResourceData) (meta : AWSClient) :
    (d.isNewResource = false →
      (resourceAssociationRead d meta .notFound).error = none ∧
      (resourceAssociationRead d meta .notFound).id = "") ∧
    (d.isNewResource = true →
      ((resourceAssociationRead d meta .notFound).error).isSome = true) := by
  constructor <;> intro h <;>
    simp [resourceAssociationRead, h, ReadOutcome.unchanged]

/-- C1 witness: the two branches at concrete data — a steady-state read
clears the identifier without error, and the same lookup on a newly created
resource errors. -/
theorem C1_witness :
    ((resourceAssociationRead dExample clientExample .notFound).error = none ∧
      (resourceAssociationRead dExample clientExample .notFound).id = "") ∧
    ((resourceAssociationRead { dExample with isNewResource := true }
        clientExample .notFound).error).isSome = true :=
  ⟨(C1_read_not_found dExample clientExample).1 rfl,
   (C1_read_not_found { dExample with isNewResource := true } clientExample).2 rfl⟩

/-- C8: a successful read computes the `arn` attribute as the resource name
built from the client's partition, the service `ssm`, the client's region and
account id, and the segment `association/` followed by the remote-assigned
association identifier. -/
theorem C8_read_arn (d : ResourceData) (meta : AWSClient)
    (a : AssociationDescription) :
    (resourceAssociationRead d meta (.found a)).error = none ∧
    (resourceAssociationRead d meta (.found a)).arn =
      some ("arn:" ++ meta.Partition ++ ":" ++ "ssm" ++ ":" ++ meta.Region ++
        ":" ++ meta.AccountID ++ ":" ++
        ("association/" ++ stringValue a.AssociationId)) :=
  ⟨rfl, rfl⟩

/-- C4: a delete whose remote call fails with an error code containing
`AssociationDoesNotExist` returns success with no diagnostics; any other
delete failure is returned as an error. -/
theorem C4_delete_idempotent (d : ResourceData) (code msg : String) :
    (errCodeContains code errCodeAssociationDoesNotExist = true →
      resourceAssociationDelete d (.err code msg) = none) ∧
    (errCodeContains code errCodeAssociationDoesNotExist = false →
      (resourceAssociationDelete d (.err code msg)).isSome = true) := by
  constructor <;> intro h <;> simp [resourceAssociationDelete, h]

/-- C4 witness: deleting an already-absent association (the exact
`AssociationDoesNotExist` code) yields no error, while an access-denied
failure does. -/
theorem C4_witness :
    resourceAssociationDelete dExample
        (.err "AssociationDoesNotExist" "association is gone") = none ∧
    (resourceAssociationDelete dExample
        (.err "AccessDeniedException" "no permission")).isSome = true :=
  ⟨(C4_delete_idempotent dExample "AssociationDoesNotExist"
      "association is gone").1 (by decide),
   (C4_delete_idempotent dExample "AccessDeniedException"
      "no permission").2 (by decide)⟩

/-- Helper: `GetOk` on a `TypeInt` field reports `ok = false` exactly on 0. -/
theorem getOkInt_eq_none (n : Int) : getOkInt n = none ↔ n = 0 := by
  unfold getOkInt
  split <;> simp_all

/-- C2: when `wait_for_success_timeout_seconds` is stored as zero (absent or
explicitly 0, so `GetOk` reports it unset), a create that returns without a
panic never invokes `waitAssociationSuccess`; the poller is invoked only when
the configured timeout is non-zero. -/
theorem C2_create_skips_wait (d : ResourceData) (api : CreateApiResult)
    (wait : WaitResult) (o : CreateOutcome)
    (h : resourceAssociationCreate d api wait = .ok o) :
    (d.wait_for_success_timeout_seconds = 0 → o.waitInvoked = false) ∧
    (o.waitInvoked = true → d.wait_for_success_timeout_seconds ≠ 0) := by
  unfold resourceAssociationCreate at h
  cases hb : buildCreateAssociationInput d <;> rw [hb] at h
  case error p => exact Except.noConfusion h
  case ok input =>
    injection h with h
    subst h
    cases api with
    | err e => simp [createAssociationOutcome]
    | ok resp =>
      cases hd : resp.AssociationDescription with
      | none => simp [createAssociationOutcome, hd]
      | some desc =>
        cases hz : getOkInt d.wait_for_success_timeout_seconds with
        | none => simp [createAssociationOutcome, hd, hz]
        | some v =>
          have hne : d.wait_for_success_timeout_seconds ≠ 0 := by
            intro h0
            rw [(getOkInt_eq_none _).mpr h0] at hz
            exact Option.noConfusion hz
          cases wait <;> simp [createAssociationOutcome, hd, hz, hne]

/-- C2 witness: with the timeout stored as 0, the concrete create outcome has
`waitInvoked = false`. -/
theorem C2_witness :
    (createAssociationOutcome dExample WaitResult.ok
        (.ok { AssociationDescription := some descriptionExample })).waitInvoked
      = false :=
  (C2_create_skips_wait dExample
      (.ok { AssociationDescription := some descriptionExample })
      WaitResult.ok _ rfl).1 rfl

/-- C10: if the create call succeeds with a nil `AssociationDescription`, the
create handler returns an error without ever setting the local identifier;
the identifier is set only from a response carrying a non-nil description. -/
theorem C10_create_nil_description (d : ResourceData) (api : CreateApiResult)
    (wait : WaitResult) (o : CreateOutcome)
    (h : resourceAssociationCreate d api wait = .ok o) :
    (∀ resp, api = .ok resp → resp.AssociationDescription = none →
      (o.error).isSome = true ∧ o.idSet = none ∧ o.waitInvoked = false) ∧
    (∀ s, o.idSet = some s →
      ∃ resp desc, api = .ok resp ∧ resp.AssociationDescription = some desc ∧
        s = stringValue desc.AssociationId) := by
  unfold resourceAssociationCreate at h
  cases hb : buildCreateAssociationInput d <;> rw [hb] at h
  case error p => exact Except.noConfusion h
  case ok input =>
    injection h with h
    subst h
    cases api with
    | err e =>
      constructor
      · intro resp hresp
        exact absurd hresp (by simp)
      · intro s hs
        simp [createAssociationOutcome] at hs
    | ok resp =>
      cases hd : resp.AssociationDescription with
      | none =>
        constructor
        · intro resp' hresp' _
          cases hresp'
          simp [createAssociationOutcome, hd]
        · intro s hs
          simp [createAssociationOutcome, hd] at hs
      | some desc =>
        constructor
        · intro resp' hresp' hnil
          cases hresp'
          rw [hd] at hnil
          exact Option.noConfusion hnil
        · intro s hs
          refine ⟨resp, desc, rfl, hd, ?_⟩
          cases hz : getOkInt d.wait_for_success_timeout_seconds <;>
            cases wait <;>
              simp [createAssociationOutcome, hd, hz] at hs <;>
                exact hs.symm

/-- C10 witness: a successful create call whose response has a nil description
yields, at concrete data, an error with no identifier set and no wait. -/
theorem C10_witness :
    ((createAssociationOutcome dExample WaitResult.ok
        (.ok { AssociationDescription := none })).error).isSome = true ∧
    (createAssociationOutcome dExample WaitResult.ok
        (.ok { AssociationDescription := none })).idSet = none ∧
    (createAssociationOutcome dExample WaitResult.ok
        (.ok { AssociationDescription := none })).waitInvoked = false :=
  (C10_create_nil_description dExample (.ok { AssociationDescription := none })
      WaitResult.ok _ rfl).1 { AssociationDescription := none } rfl rfl

/-- Helper: folding the Go map assignment over entries whose keys are fresh
for the accumulator and pairwise distinct appends the bindings in order. -/
theorem foldl_mapAssign_fresh (params : List (String × String))
    (acc : List (String × List String))
    (hfresh : ∀ kv ∈ params, acc.any (fun p => p.1 = kv.1) = false)
    (hnd : (params.map Prod.fst).Nodup) :
    params.foldl (fun docParams kv => mapAssign docParams kv.1 [kv.2]) acc =
      acc ++ params.map (fun kv => (kv.1, [kv.2])) := by
  induction params generalizing acc with
  | nil => simp
  | cons kv rest ih =>
    simp only [List.map_cons] at hnd
    have hkv : acc.any (fun p => p.1 = kv.1) = false :=
      hfresh kv (List.mem_cons_self _ _)
    have hstep : mapAssign acc kv.1 [kv.2] = acc ++ [(kv.1, [kv.2])] := by
      unfold mapAssign
      rw [hkv]
      simp
    simp only [List.foldl_cons, hstep]
    rw [ih (acc ++ [(kv.1, [kv.2])]) ?_ ?_]
    · simp
    · intro kv' hkv'
      have h1 : acc.any (fun p => p.1 = kv'.1) = false :=
        hfresh kv' (List.mem_cons_of_mem _ hkv')
      have h2 : ¬(kv.1 = kv'.1) := by
        intro he
        exact (List.nodup_cons.mp hnd).1 (he ▸ List.mem_map_of_mem Prod.fst hkv')
      rw [List.any_append]
      simp [h1, h2]
    · exact (List.nodup_cons.mp hnd).2

/-- C6: on a parameter map (pairwise-distinct keys), the expansion binds
exactly the same keys in the same order, each to the one-element list holding
that key's configured value. -/
theorem C6_expand_document_parameters (params : List (String × String))
    (hnd : (params.map Prod.fst).Nodup) :
    expandDocumentParameters params = params.map (fun kv => (kv.1, [kv.2])) := by
  have h := foldl_mapAssign_fresh params [] (fun kv _ => rfl) hnd
  simpa [expandDocumentParameters] using h

/-- C6 witness: a two-key parameter map expands to one-element value lists
keyed identically. -/
theorem C6_witness :
    expandDocumentParameters [("commands", "ls"), ("workingDirectory", "/tmp")] =
      [("commands", ["ls"]), ("workingDirectory", ["/tmp"])] :=
  C6_expand_document_parameters
    [("commands", "ls"), ("workingDirectory", "/tmp")] (by decide)

/-- Helper: `GetOk` on a list field returns the list itself, and only on a
non-empty list. -/
theorem getOkList_eq_some {α : Type} (l v : List α) (h : getOkList l = some v) :
    v = l ∧ l ≠ [] := by
  unfold getOkList at h
  by_cases he : l.isEmpty = true
  · rw [if_pos he] at h
    exact Option.noConfusion h
  · rw [if_neg he] at h
    injection h with h
    refine ⟨h.symm, ?_⟩
    cases l with
    | nil => simp at he
    | cons a t => simp

/-- C3 counterexample: in the configuration `dKeyPrefixUnsetExample` the
`s3_key_prefix` field is unset — the flat map read from `ResourceData` stores
the zero value `""` under its (always present) key — yet the built create
request populates `OutputS3KeyPrefix` with the empty string instead of
leaving it nil. -/
theorem C3_counterexample :
    ((buildCreateAssociationInput dKeyPrefixUnsetExample).toOption.bind
        (fun i => i.OutputLocation.bind
          (fun loc => loc.S3Location.map (fun s3 => s3.OutputS3KeyPrefix))))
      = some (some "") ∧ (some "" : Option String) ≠ none := by
  exact ⟨rfl, by simp⟩

/-- C3 (amended): every top-level optional field left unset in the
configuration is omitted (nil) from the built create request, and so is an
unset `s3_region` of the output location; `s3_key_prefix`, however, is copied
verbatim whenever its key is present in the flat configuration map — as it
always is in data read back from `ResourceData` — so an unset `s3_key_prefix`
yields an empty-string attribute rather than an omitted one. -/
theorem C3_optional_fields_omitted (d : ResourceData)
    (i : CreateAssociationInput) (h : buildCreateAssociationInput d = .ok i) :
    (d.apply_only_at_cron_interval = false → i.ApplyOnlyAtCronInterval = none) ∧
    (d.association_name = "" → i.AssociationName = none) ∧
    (d.instance_id = "" → i.InstanceId = none) ∧
    (d.document_version = "" → i.DocumentVersion = none) ∧
    (d.schedule_expression = "" → i.ScheduleExpression = none) ∧
    (d.parameters = [] → i.Parameters = none) ∧
    (d.targets = [] → i.Targets = none) ∧
    (d.output_location = [] → i.OutputLocation = none) ∧
    (d.compliance_severity = "" → i.ComplianceSeverity = none) ∧
    (d.max_concurrency = "" → i.MaxConcurrency = none) ∧
    (d.max_errors = "" → i.MaxErrors = none) ∧
    (d.automation_target_parameter_name = "" →
      i.AutomationTargetParameterName = none) ∧
    (∀ item rest loc s3, d.output_location = item :: rest →
      i.OutputLocation = some loc → loc.S3Location = some s3 →
      s3.OutputS3KeyPrefix = item.s3KeyPrefix ∧
      ((item.s3Region = none ∨ item.s3Region = some "") →
        s3.OutputS3Region = none)) := by
  unfold buildCreateAssociationInput at h
  cases hl : getOkList d.output_location <;> rw [hl] at h
  case none =>
    injection h with h
    subst h
    refine ⟨fun hq => by simp [getOkBool, hq],
            fun hq => by simp [getOkString, hq],
            fun hq => by simp [getOkString, hq],
            fun hq => by simp [getOkString, hq],
            fun hq => by simp [getOkString, hq],
            fun hq => by simp [getOkList, hq],
            fun hq => by simp [getOkList, hq],
            fun _ => rfl,
            fun hq => by simp [getOkString, hq],
            fun hq => by simp [getOkString, hq],
            fun hq => by simp [getOkString, hq],
            fun hq => by simp [getOkString, hq],
            fun item rest loc s3 hitems hloc hs3 => absurd hloc (by simp)⟩
  case some v =>
    obtain ⟨rfl, hne⟩ := getOkList_eq_some _ _ hl
    cases hcons : d.output_location with
    | nil => exact absurd hcons hne
    | cons item rest =>
      rw [hcons] at h
      simp only [expandAssociationOutputLocation] at h
      cases hbk : item.s3BucketName <;> rw [hbk] at h
      case none => exact Except.noConfusion h
      case some bucket =>
        injection h with h
        subst h
        refine ⟨fun hq => by simp [getOkBool, hq],
                fun hq => by simp [getOkString, hq],
                fun hq => by simp [getOkString, hq],
                fun hq => by simp [getOkString, hq],
                fun hq => by simp [getOkString, hq],
                fun hq => by simp [getOkList, hq],
                fun hq => by simp [getOkList, hq],
                fun hq => List.noConfusion hq,
                fun hq => by simp [getOkString, hq],
                fun hq => by simp [getOkString, hq],
                fun hq => by simp [getOkString, hq],
                fun hq => by simp [getOkString, hq],
                ?_⟩
        intro item' rest' loc s3 hitems hloc hs3
        injection hitems with hitem hrest
        subst hitem
        injection hloc with hloc
        subst hloc
        injection hs3 with hs3
        subst hs3
        refine ⟨rfl, ?_⟩
        intro hr
        rcases hr with hr | hr
        · rw [hr]
        · rw [hr]
          simp

/-- C3 witness (amended theorem): at concrete data with every optional field
unset, the built request omits every optional attribute. -/
theorem C3_witness :
    ((buildCreateAssociationInput dExample).toOption.map
        (fun i => i.AssociationName)) = some none ∧
    ((buildCreateAssociationInput dExample).toOption.map
        (fun i => i.OutputLocation)) = some none := by
  have h := C3_optional_fields_omitted dExample inputExampleBuilt rfl
  have he : (buildCreateAssociationInput dExample).toOption =
      some inputExampleBuilt := rfl
  simp only [he, Option.map_some']
  exact ⟨congrArg some (h.2.1 rfl),
    congrArg some (h.2.2.2.2.2.2.2.1 rfl)⟩
